import Mathlib

/-!
Verification of the mlflow REST client (`mlflow/utils/rest_utils.py`).

The definitions below are a shallow embedding of the Python source:
pure helpers become Lean functions, exception-raising code returns
`Except PyError`, and HTTP transports are modelled as functions from an
attempt index to the observed outcome of that attempt.  The `urllib3`
retry machinery and the Python standard `json` module are third-party
collaborators whose code is not part of the repository; they are
modelled from their documented contract as stated in the spec and in
the docstrings of the source file.
-/

/-- JSON values, the result type of the modelled `json.loads`.  Object
fields keep their textual order. -/
inductive Json where
  | null
  | bool (b : Bool)
  | num (lit : String)
  | str (s : String)
  | arr (elems : List Json)
  | obj (fields : List (String × Json))

/-- The double-quote character. -/
def quoteChar : Char := Char.ofNat 34

/-- The backslash character. -/
def backslashChar : Char := Char.ofNat 92

/-- The opening curly brace character. -/
def lbrace : Char := Char.ofNat 123

/-- The closing curly brace character. -/
def rbrace : Char := Char.ofNat 125

/-- Skip JSON whitespace (space, tab, newline, carriage return). -/
def skipWs : List Char → List Char
  | c :: cs =>
    if c = ' ' ∨ c = Char.ofNat 9 ∨ c = Char.ofNat 10 ∨ c = Char.ofNat 13 then skipWs cs
    else c :: cs
  | [] => []

/-- Value of a hexadecimal digit. -/
def hexVal (c : Char) : Option Nat :=
  if c.isDigit then some (c.toNat - 48)
  else if 'a' ≤ c ∧ c ≤ 'f' then some (c.toNat - 87)
  else if 'A' ≤ c ∧ c ≤ 'F' then some (c.toNat - 55)
  else none

/-- Single-character JSON string escapes. -/
def escapeChar (e : Char) : Option Char :=
  if e = quoteChar then some quoteChar
  else if e = backslashChar then some backslashChar
  else if e = '/' then some '/'
  else if e = 'n' then some (Char.ofNat 10)
  else if e = 't' then some (Char.ofNat 9)
  else if e = 'r' then some (Char.ofNat 13)
  else if e = 'b' then some (Char.ofNat 8)
  else if e = 'f' then some (Char.ofNat 12)
  else none

/-- Parse the characters of a JSON string literal after its opening
quote, returning the decoded characters and the remaining input. -/
def parseStrChars : Nat → List Char → Option (List Char × List Char)
  | 0, _ => none
  | _+1, [] => none
  | fuel+1, c :: cs =>
    if c = quoteChar then some ([], cs)
    else if c = backslashChar then
      match cs with
      | [] => none
      | e :: cs2 =>
        match escapeChar e with
        | some ch =>
          match parseStrChars fuel cs2 with
          | some (out, rem) => some (ch :: out, rem)
          | none => none
        | none =>
          if e = 'u' then
            match cs2 with
            | h1 :: h2 :: h3 :: h4 :: cs3 =>
              match hexVal h1, hexVal h2, hexVal h3, hexVal h4 with
              | some a, some b, some c2, some d =>
                match parseStrChars fuel cs3 with
                | some (out, rem) => some (Char.ofNat (((a * 16 + b) * 16 + c2) * 16 + d) :: out, rem)
                | none => none
              | _, _, _, _ => none
            | _ => none
          else none
    else if c.toNat < 32 then none
    else
      match parseStrChars fuel cs with
      | some (out, rem) => some (c :: out, rem)
      | none => none

/-- Take a maximal run of decimal digits. -/
def takeDigits : List Char → List Char × List Char
  | [] => ([], [])
  | c :: cs =>
    if c.isDigit then
      match takeDigits cs with
      | (d, r) => (c :: d, r)
    else ([], c :: cs)

/-- Parse a JSON number literal, returning its lexeme and the rest of the
input. -/
def parseNumber (cs : List Char) : Option (String × List Char) :=
  let signSplit : List Char × List Char :=
    match cs with
    | c :: rest => if c = '-' then ([c], rest) else ([], cs)
    | [] => ([], [])
  match takeDigits signSplit.2 with
  | ([], _) => none
  | (ds, cs2) =>
    let fracSplit : List Char × List Char :=
      match cs2 with
      | c :: rest =>
        if c = '.' then
          match takeDigits rest with
          | ([], _) => ([], cs2)
          | (fs, r2) => (c :: fs, r2)
        else ([], cs2)
      | [] => ([], cs2)
    let cs3 := fracSplit.2
    let expSplit : List Char × List Char :=
      match cs3 with
      | c :: rest =>
        if c = 'e' ∨ c = 'E' then
          match rest with
          | s :: r2 =>
            if s = '+' ∨ s = '-' then
              match takeDigits r2 with
              | ([], _) => ([], cs3)
              | (es, r3) => (c :: s :: es, r3)
            else
              match takeDigits rest with
              | ([], _) => ([], cs3)
              | (es, r3) => (c :: es, r3)
          | [] => ([], cs3)
        else ([], cs3)
      | [] => ([], cs3)
    some (String.mk (signSplit.1 ++ ds ++ fracSplit.1 ++ expSplit.1), expSplit.2)

mutual

/-- Recursive-descent parser for one JSON value; fuel bounds recursion depth. -/
def parseValue : Nat → List Char → Option (Json × List Char)
  | 0, _ => none
  | fuel+1, cs =>
    match skipWs cs with
    | [] => none
    | c :: rest =>
      if c = 'n' then
        match rest with
        | 'u' :: 'l' :: 'l' :: r => some (Json.null, r)
        | _ => none
      else if c = 't' then
        match rest with
        | 'r' :: 'u' :: 'e' :: r => some (Json.bool true, r)
        | _ => none
      else if c = 'f' then
        match rest with
        | 'a' :: 'l' :: 's' :: 'e' :: r => some (Json.bool false, r)
        | _ => none
      else if c = quoteChar then
        match parseStrChars (rest.length + 1) rest with
        | some (out, rem) => some (Json.str (String.mk out), rem)
        | none => none
      else if c = '[' then
        match skipWs rest with
        | d :: r2 =>
          if d = ']' then some (Json.arr [], r2)
          else
            match parseElems fuel rest with
            | some (xs, rem) => some (Json.arr xs, rem)
            | none => none
        | [] => none
      else if c = lbrace then
        match skipWs rest with
        | d :: r2 =>
          if d = rbrace then some (Json.obj [], r2)
          else
            match parseMembers fuel rest with
            | some (ms, rem) => some (Json.obj ms, rem)
            | none => none
        | [] => none
      else
        match parseNumber (c :: rest) with
        | some (lit, rem) => some (Json.num lit, rem)
        | none => none

/-- Parse a non-empty comma-separated list of array elements up to the
closing bracket. -/
def parseElems : Nat → List Char → Option (List Json × List Char)
  | 0, _ => none
  | fuel+1, cs =>
    match parseValue fuel cs with
    | none => none
    | some (v, rem) =>
      match skipWs rem with
      | c :: r2 =>
        if c = ',' then
          match parseElems fuel r2 with
          | some (vs, r3) => some (v :: vs, r3)
          | none => none
        else if c = ']' then some ([v], r2)
        else none
      | [] => none

/-- Parse a non-empty comma-separated list of object members up to the
closing brace. -/
def parseMembers : Nat → List Char → Option (List (String × Json) × List Char)
  | 0, _ => none
  | fuel+1, cs =>
    match skipWs cs with
    | c :: r1 =>
      if c = quoteChar then
        match parseStrChars (r1.length + 1) r1 with
        | some (key, r2) =>
          match skipWs r2 with
          | d :: r3 =>
            if d = ':' then
              match parseValue fuel r3 with
              | some (v, r4) =>
                match skipWs r4 with
                | g :: r5 =>
                  if g = ',' then
                    match parseMembers fuel r5 with
                    | some (ms, r6) => some ((String.mk key, v) :: ms, r6)
                    | none => none
                  else if g = rbrace then some ([(String.mk key, v)], r5)
                  else none
                | [] => none
              | none => none
            else none
          | [] => none
        | none => none
      else none
    | [] => none

end

/-- Model of Python `json.loads` as a total function: `some` on a valid
JSON document (with surrounding whitespace allowed), `none` where
`json.loads` raises `JSONDecodeError`. -/
def Json.parse (s : String) : Option Json :=
  match parseValue (2 * s.length + 2) s.toList with
  | some (v, rem) => if skipWs rem = [] then some v else none
  | none => none

/-- `_can_parse_as_json` from `rest_utils.py`: whether `json.loads`
succeeds on the string. -/
def _can_parse_as_json (s : String) : Bool :=
  (Json.parse s).isSome

/-- An HTTP response as observed by the client: its status code and its
body text. -/
structure HttpResponse where
  status_code : Nat
  text : String

/-- The Python exceptions raised by the embedded code.
`mlflowException` models `MlflowException(message, error_code)`,
`restException` models `RestException(json.loads(body))`,
`assertionError` models a failed `assert` statement,
`valueError` models `ValueError` and `json.JSONDecodeError`, and
`connectionError` models the connection-level `MaxRetryError` raised by
the transport after its retry budget is exhausted with no response. -/
inductive PyError where
  | mlflowException (message : String) (error_code : Option String)
  | restException (body : Json)
  | assertionError
  | valueError (message : String)
  | connectionError (message : String)

/-- `databricks_pb2.INVALID_PARAMETER_VALUE`, the error code used by the
`MlflowHostCreds` constructor. -/
def INVALID_PARAMETER_VALUE : String := "INVALID_PARAMETER_VALUE"

/-- `MlflowHostCreds`: hostname and optional authentication for talking
to an MLflow tracking server (`rest_utils.py` lines 248-303). -/
structure MlflowHostCreds where
  host : String
  username : Option String
  password : Option String
  token : Option String
  ignore_tls_verification : Bool
  client_cert_path : Option String
  server_cert_path : Option String

/-- `MlflowHostCreds.__init__` (lines 271-303): validates the host and
the TLS options, raising `MlflowException` with error code
`INVALID_PARAMETER_VALUE` on violation; on success every argument is
stored as a field.  A raise happens before any field assignment, so a
failing construction stores nothing. -/
def MlflowHostCreds.init (host : String) (username password token : Option String)
    (ignore_tls_verification : Bool) (client_cert_path server_cert_path : Option String) :
    Except PyError MlflowHostCreds :=
  if host = "" then
    Except.error (PyError.mlflowException
      ("host is a required parameter for MlflowHostCreds") (some INVALID_PARAMETER_VALUE))
  else if ignore_tls_verification = true ∧ server_cert_path ≠ none then
    Except.error (PyError.mlflowException
      ("When \x27ignore_tls_verification\x27 is true then \x27server_cert_path\x27 must not be set! This error may have occurred because the \x27MLFLOW_TRACKING_INSECURE_TLS\x27 and \x27MLFLOW_TRACKING_SERVER_CERT_PATH\x27 environment variables are both set - only one of these environment variables may be set.")
      (some INVALID_PARAMETER_VALUE))
  else
    Except.ok ⟨host, username, password, token, ignore_tls_verification,
      client_cert_path, server_cert_path⟩

/-- Python truthiness of an optional string: `None` and the empty string
are falsy. -/
def pyTruthy : Option String → Bool
  | none => false
  | some s => !(s == "")

/-- UTF-8 encoding of one character, as a list of byte values. -/
def utf8Bytes (c : Char) : List Nat :=
  let n := c.toNat
  if n < 128 then [n]
  else if n < 2048 then [192 + n / 64, 128 + n % 64]
  else if n < 65536 then [224 + n / 4096, 128 + (n / 64) % 64, 128 + n % 64]
  else [240 + n / 262144, 128 + (n / 4096) % 64, 128 + (n / 64) % 64, 128 + n % 64]

/-- UTF-8 encoding of a string (Python `str.encode("utf-8")`). -/
def utf8Encode (s : String) : List Nat :=
  (s.toList.map utf8Bytes).flatten

/-- The standard base64 alphabet. -/
def b64Alphabet : List Char :=
  ("ABCDEFGHIJKLMNOPQRSTUVWXYZabcdefghijklmnopqrstuvwxyz0123456789+/").toList

/-- Character of the standard base64 alphabet at an index. -/
def b64Char (n : Nat) : Char := b64Alphabet.getD n 'A'

/-- `base64.standard_b64encode` over a byte list, producing the padded
base64 text. -/
def base64Encode : List Nat → String
  | [] => ""
  | [a] => String.mk [b64Char (a / 4), b64Char ((a % 4) * 16), '=', '=']
  | [a, b] => String.mk [b64Char (a / 4), b64Char ((a % 4) * 16 + b / 16), b64Char ((b % 16) * 4), '=']
  | a :: b :: c :: rest =>
    String.mk [b64Char (a / 4), b64Char ((a % 4) * 16 + b / 16),
      b64Char ((b % 16) * 4 + c / 64), b64Char (c % 64)] ++ base64Encode rest

/-- The `auth_str` computation of `http_request` (lines 90-95): the
`username and password` branch is tested first, and only otherwise is
the token consulted. -/
def build_auth_str (host_creds : MlflowHostCreds) : Option String :=
  if pyTruthy host_creds.username ∧ pyTruthy host_creds.password then
    some ("Basic " ++ base64Encode (utf8Encode
      (host_creds.username.getD "" ++ ":" ++ host_creds.password.getD "")))
  else if pyTruthy host_creds.token then
    some ("Bearer " ++ host_creds.token.getD "")
  else none

/-- Modelled from the spec: `strip_suffix` from
`mlflow.utils.string_utils` is repository code not under src/; per the
spec the host is used "with any trailing slash stripped", so the
function removes the given non-empty suffix from the end of the string
when present. -/
def strip_suffix (s suffix : String) : String :=
  if suffix ≠ "" ∧ suffix.toList.isSuffixOf s.toList = true then
    String.mk (s.toList.take (s.toList.length - suffix.toList.length))
  else s

/-- The URL built by `http_request` (lines 111-112): the host with a
trailing slash stripped, concatenated with the endpoint. -/
def http_request_url (host endpoint : String) : String :=
  strip_suffix host ("/") ++ endpoint

/-- Python `str(e)` for the modelled exceptions, used when an exception
is interpolated into a message. -/
def pyErrorStr : PyError → String
  | PyError.mlflowException m _ => m
  | PyError.restException _ => "RestException"
  | PyError.assertionError => "AssertionError"
  | PyError.valueError m => m
  | PyError.connectionError m => m

/-- The `try/except` tail of `http_request` (lines 113-125): the result
of the retrying transport call is returned unchanged on success, and
any exception `e` it raises is re-raised as
`MlflowException("API request to %s failed with exception %s" % (url, e))`. -/
def http_request (host_creds : MlflowHostCreds) (endpoint : String)
    (inner : Except PyError HttpResponse) : Except PyError HttpResponse :=
  match inner with
  | Except.ok r => Except.ok r
  | Except.error e =>
    Except.error (PyError.mlflowException
      ("API request to " ++ http_request_url host_creds.host endpoint
        ++ " failed with exception " ++ pyErrorStr e) none)

/-- `_REST_API_PATH_PREFIX` (line 18). -/
def _REST_API_PATH_PREFIX : String := "/api/2.0"

/-- `endpoint.startswith(_REST_API_PATH_PREFIX)` from line 158,
modelling Python `str.startswith`. -/
def startsWithApiPath (endpoint : String) : Bool :=
  ( _REST_API_PATH_PREFIX).toList.isPrefixOf endpoint.toList

/-- `verify_rest_response` (lines 144-165): a non-200 response raises
`RestException` of the parsed JSON body when the body parses, otherwise
`MlflowException` naming the status code and the raw body; a 200
response whose endpoint is under `_REST_API_PATH_PREFIX` and whose body
is not JSON raises `MlflowException`; all other responses are returned
unchanged. -/
def verify_rest_response (response : HttpResponse) (endpoint : String) :
    Except PyError HttpResponse :=
  if response.status_code ≠ 200 then
    match Json.parse response.text with
    | some j => Except.error (PyError.restException j)
    | none =>
      Except.error (PyError.mlflowException
        ("API request to endpoint " ++ endpoint ++ " failed with error code "
          ++ toString response.status_code ++ " != 200. Response body: \x27"
          ++ response.text ++ "\x27") none)
  else if startsWithApiPath endpoint && !(_can_parse_as_json response.text) then
    Except.error (PyError.mlflowException
      ("API request to endpoint was successful but the response body was not in a valid JSON format. Response body: \x27"
        ++ response.text ++ "\x27") none)
  else Except.ok response

/-- Field lookup in a parsed JSON object (first occurrence wins, as in a
Python dict built by `json.loads`). -/
def lookupField : List (String × Json) → String → Option Json
  | [], _ => none
  | (k, v) :: rest, key => if k = key then some v else lookupField rest key

/-- Lookup of a key on a JSON value (`dict.get`); `none` on non-objects. -/
def jsonGet : Json → String → Option Json
  | Json.obj fields, key => lookupField fields key
  | _, _ => none

/-- Modelled from the spec: `RestException` (`mlflow/exceptions.py`, not
under src/) is the structured service error "populated from the parsed
structured fields (error code, message)"; this extracts the error code
field it carries. -/
def restExceptionErrorCode (body : Json) : Option String :=
  match jsonGet body ("error_code") with
  | some (Json.str s) => some s
  | _ => none

/-- `_TRANSIENT_FAILURE_RESPONSE_CODES` (lines 23-30). -/
def _TRANSIENT_FAILURE_RESPONSE_CODES : List Nat :=
  [408, 429, 500, 502, 503, 504]

/-- The configuration of a `urllib3.util.Retry` object: the per-class
retry caps (`none` for an unlimited class), the status codes that force
a retry, and the backoff factor. -/
structure RetryPolicy where
  total : Option Nat
  connect : Option Nat
  read : Option Nat
  redirect : Option Nat
  status : Option Nat
  status_forcelist : List Nat
  backoff_factor : Rat

/-- The `Retry` object built by `_get_http_response_with_retries`
(lines 45-53): every class cap is the single shared `max_retries`. -/
def defaultRetryPolicy (max_retries : Nat) (backoff_factor : Rat)
    (retry_codes : List Nat) : RetryPolicy :=
  ⟨some max_retries, some max_retries, some max_retries, some max_retries,
    some max_retries, retry_codes, backoff_factor⟩

/-- The `Retry` object built by `cloud_storage_http_request`
(lines 220-232): `total=None`, zero connect retries, one read retry,
three redirect follows, `retry_attempts` status retries over the
transient codes, backoff factor 1. -/
def cloudStorageRetryPolicy (retry_attempts : Nat) : RetryPolicy :=
  ⟨none, some 0, some 1, some 3, some retry_attempts,
    _TRANSIENT_FAILURE_RESPONSE_CODES, 1⟩

/-- `retry_attempts = kwargs.get("retry_attempts", 5)` (line 219)
followed by the `Retry` construction: the policy used by
`cloud_storage_http_request`, with its default of 5 status retries. -/
def cloud_storage_http_request_policy (kwargs_retry_attempts : Option Nat) : RetryPolicy :=
  cloudStorageRetryPolicy (kwargs_retry_attempts.getD 5)

/-- Modelled from the spec: the backoff law of the third-party `urllib3`
retry machinery, which is not repository code.  Spec section 4.2 states
the delay between attempt `i` and attempt `i+1` is
`backoffFactor * 2^(i-1)` seconds, matching the source docstrings
("value 5 means the HTTP request will be retried with interval
5, 10, 20... seconds"). -/
def backoffDelay (backoff_factor : Rat) (i : Nat) : Rat :=
  backoff_factor * 2 ^ (i - 1)

/-- The outcome of one HTTP attempt: either a connection-level failure
with no response received, or a response. -/
inductive Outcome where
  | connFail
  | resp (r : HttpResponse)

/-- Whether an attempt outcome is a response whose status code is in the
retryable set (`status_forcelist` membership). -/
def statusRetryableB (retry_codes : List Nat) : Outcome → Bool
  | Outcome.connFail => false
  | Outcome.resp r => decide (r.status_code ∈ retry_codes)

/-- Modelled from the spec: the execution loop of the third-party
`urllib3` retry machinery, which is not repository code.  Per spec
section 4.2 the transport retries on connection failure or on a
response whose status is in `retry_codes`, up to `remaining` further
attempts sharing one budget, sleeping the backoff delay before each
retry; after the budget is exhausted a final connection failure is a
transport error while a final response is passed through for
classification.  `stream i` is the outcome of the `i`-th attempt
(0-based); the result pairs the call outcome with the chronological
list of sleeps performed. -/
def runRetries (retry_codes : List Nat) (backoff_factor : Rat) (stream : Nat → Outcome) :
    Nat → Nat → Except PyError HttpResponse × List Rat
  | i, 0 =>
    match stream i with
    | Outcome.connFail =>
      (Except.error (PyError.connectionError ("Max retries exceeded")), [])
    | Outcome.resp r => (Except.ok r, [])
  | i, remaining+1 =>
    match stream i with
    | Outcome.connFail =>
      ((runRetries retry_codes backoff_factor stream (i+1) remaining).1,
        backoffDelay backoff_factor (i+1)
          :: (runRetries retry_codes backoff_factor stream (i+1) remaining).2)
    | Outcome.resp r =>
      if r.status_code ∈ retry_codes then
        ((runRetries retry_codes backoff_factor stream (i+1) remaining).1,
          backoffDelay backoff_factor (i+1)
            :: (runRetries retry_codes backoff_factor stream (i+1) remaining).2)
      else (Except.ok r, [])

/-- `_get_http_response_with_retries` (lines 33-61): asserts the bounds
on `max_retries` and `backoff_factor` before building the adapter or
touching the network, then performs the request under the retry
policy. -/
def _get_http_response_with_retries (max_retries : Int) (backoff_factor : Rat)
    (retry_codes : List Nat) (stream : Nat → Outcome) : Except PyError HttpResponse :=
  if 0 ≤ max_retries ∧ max_retries < 10 then
    if 0 ≤ backoff_factor ∧ backoff_factor < 120 then
      (runRetries retry_codes backoff_factor stream 0 max_retries.toNat).1
    else Except.error PyError.assertionError
  else Except.error PyError.assertionError

/-- The keyword arguments `call_endpoint` passes to the transport:
`params` holds the query-parameter payload, `json` the JSON body
payload (lines 188-195). -/
structure PyRequest where
  method : String
  params : Option Json
  json : Option Json

/-- The request built by `call_endpoint`: a GET puts the parsed payload
in `params` and sends no body, every other verb sends it as the JSON
body. -/
def build_request (method : String) (body : Option Json) : PyRequest :=
  if method = "GET" then ⟨method, body, none⟩ else ⟨method, none, body⟩

/-- The tail of `call_endpoint` (lines 196-199): verify the response,
parse its body as JSON, and parse that JSON into the caller-specified
response message.  `parse_dict` is repository code not under src/;
modelled from the spec: "parse the JSON body into the caller-specified
typed response shape, failing with `ProtocolError` if the body does not
conform to that shape", it is abstracted as the caller-specified
decoder `parse_dict`. -/
def call_endpoint_response_phase {P : Type} (parse_dict : Json → Option P)
    (endpoint : String) (response : HttpResponse) : Except PyError P :=
  match verify_rest_response response endpoint with
  | Except.error e => Except.error e
  | Except.ok r =>
    match Json.parse r.text with
    | none => Except.error (PyError.valueError ("JSONDecodeError"))
    | some js =>
      match parse_dict js with
      | some p => Except.ok p
      | none =>
        Except.error (PyError.mlflowException
          ("Response body does not conform to the expected response shape") none)

/-- `call_endpoint` (lines 184-199): parse the JSON-string payload when
non-empty, dispatch it as query parameters for GET and as a JSON body
for every other verb, then verify and decode the response.  The
transport is abstracted as a function from the built request to the
response it produced. -/
def call_endpoint {P : Type} (transport : PyRequest → HttpResponse)
    (parse_dict : Json → Option P) (endpoint method json_body : String) :
    Except PyError P :=
  match (if json_body = "" then Except.ok none
    else
      match Json.parse json_body with
      | some j => Except.ok (some j)
      | none => Except.error (PyError.valueError ("JSONDecodeError"))) with
  | Except.error e => Except.error e
  | Except.ok body =>
    call_endpoint_response_phase parse_dict endpoint (transport (build_request method body))

/-- A transport whose every attempt yields a 500 response with body
"err". -/
def s500 : Nat → Outcome := fun _ => Outcome.resp ⟨500, "err"⟩

/-- The concrete 429 body of the spec's testable property. -/
def body429 : String :=
  "\x7b\"error_code\":\"RESOURCE_DOES_NOT_EXIST\",\"message\":\"x\"\x7d"

/-- The JSON value `body429` parses to. -/
def json429 : Json :=
  Json.obj [("error_code", Json.str ("RESOURCE_DOES_NOT_EXIST")), ("message", Json.str ("x"))]

/-- A transport whose every request yields a 200 response with body
"null". -/
def tOk : PyRequest → HttpResponse := fun _ => ⟨200, "null"⟩

/-- The identity response decoder, standing for a trivially conforming
typed response shape. -/
def idDecode : Json → Option Json := fun j => some j

/-- If the retry loop ends in a transport error, the final attempt
(the one made with an empty remaining budget) was a connection failure:
no response was received there. -/
theorem runRetries_error_last_connFail (retry_codes : List Nat) (backoff_factor : Rat)
    (stream : Nat → Outcome) :
    ∀ n i e, (runRetries retry_codes backoff_factor stream i n).1 = Except.error e →
      stream (i + n) = Outcome.connFail := by
  intro n
  induction n with
  | zero =>
    intro i e h
    cases hs : stream i with
    | connFail => simpa using hs
    | resp r => simp [runRetries, hs] at h
  | succ n ih =>
    intro i e h
    cases hs : stream i with
    | connFail =>
      simp only [runRetries, hs] at h
      have h2 : i + (n + 1) = i + 1 + n := by omega
      rw [h2]
      exact ih (i + 1) e h
    | resp r =>
      simp only [runRetries, hs] at h
      by_cases hc : r.status_code ∈ retry_codes
      · simp only [hc, if_true] at h
        have h2 : i + (n + 1) = i + 1 + n := by omega
        rw [h2]
        exact ih (i + 1) e h
      · simp [hc] at h

/-- If every attempt inside the retry budget observes a retryable-status
response, the loop runs the whole budget and returns the final attempt's
response. -/
theorem runRetries_exhaust_ok_last (retry_codes : List Nat) (backoff_factor : Rat)
    (stream : Nat → Outcome) :
    ∀ n i r, (∀ j, j < n → statusRetryableB retry_codes (stream (i + j)) = true) →
      stream (i + n) = Outcome.resp r →
      (runRetries retry_codes backoff_factor stream i n).1 = Except.ok r := by
  intro n
  induction n with
  | zero =>
    intro i r _ hlast
    rw [Nat.add_zero] at hlast
    simp [runRetries, hlast]
  | succ n ih =>
    intro i r hall hlast
    have h0 := hall 0 (Nat.succ_pos n)
    rw [Nat.add_zero] at h0
    cases hs : stream i with
    | connFail => rw [hs] at h0; simp [statusRetryableB] at h0
    | resp r0 =>
      rw [hs] at h0
      have hc : r0.status_code ∈ retry_codes := by
        simpa [statusRetryableB] using h0
      simp only [runRetries, hs, hc, if_true]
      apply ih (i + 1)
      · intro j hj
        have hsh := hall (j + 1) (by omega)
        have h2 : i + (j + 1) = i + 1 + j := by omega
        rwa [h2] at hsh
      · have h2 : i + (n + 1) = i + 1 + n := by omega
        rwa [h2] at hlast

/-- Under a run of retryable-status responses, the `k`-th sleep of the
retry loop is the backoff delay for retry `k+1`. -/
theorem runRetries_sleeps_get (retry_codes : List Nat) (backoff_factor : Rat)
    (stream : Nat → Outcome) :
    ∀ n i, (∀ j, j < n → statusRetryableB retry_codes (stream (i + j)) = true) →
      ∀ k, k < n → ((runRetries retry_codes backoff_factor stream i n).2)[k]?
        = some (backoffDelay backoff_factor (i + k + 1)) := by
  intro n
  induction n with
  | zero => intro i _ k hk; omega
  | succ n ih =>
    intro i hall k hk
    have h0 := hall 0 (Nat.succ_pos n)
    rw [Nat.add_zero] at h0
    cases hs : stream i with
    | connFail => rw [hs] at h0; simp [statusRetryableB] at h0
    | resp r0 =>
      rw [hs] at h0
      have hc : r0.status_code ∈ retry_codes := by
        simpa [statusRetryableB] using h0
      simp only [runRetries, hs, hc, if_true]
      cases k with
      | zero => simp
      | succ k =>
        rw [List.getElem?_cons_succ]
        have hres := ih (i + 1) (by
          intro j hj
          have hsh := hall (j + 1) (by omega)
          have h2 : i + (j + 1) = i + 1 + j := by omega
          rwa [h2] at hsh) k (by omega)
        have h2 : i + 1 + k + 1 = i + (k + 1) + 1 := by omega
        rwa [h2] at hres

/-- C1: for every logical call through the default transport, when the
status-retry budget is exhausted by responses whose status codes are in
the retryable set, the last observed non-200 response is returned from
the transport (to be passed to the verifier for classification) rather
than raised as a transport failure, and a transport error is surfaced
only in the connection-level case where the final attempt received no
response. -/
theorem default_transport_exhaustion_passthrough (retry_codes : List Nat)
    (backoff_factor : Rat) (stream : Nat → Outcome) (max_retries : Nat) :
    (∀ r, (∀ j, j < max_retries → statusRetryableB retry_codes (stream j) = true) →
       stream max_retries = Outcome.resp r →
       (runRetries retry_codes backoff_factor stream 0 max_retries).1 = Except.ok r)
  ∧ (∀ e, (runRetries retry_codes backoff_factor stream 0 max_retries).1 = Except.error e →
       stream max_retries = Outcome.connFail) := by
  constructor
  · intro r hall hlast
    apply runRetries_exhaust_ok_last retry_codes backoff_factor stream max_retries 0 r
    · intro j hj
      simpa using hall j hj
    · simpa using hlast
  · intro e h
    have hlast := runRetries_error_last_connFail retry_codes backoff_factor stream max_retries 0 e h
    simpa using hlast

/-- Witness for C1: three attempts of budget 3 all answer 500; the call
returns the last 500 response instead of raising. -/
theorem default_transport_exhaustion_passthrough_witness :
    (runRetries [429, 500, 503] 5 s500 0 3).1 = Except.ok (⟨500, "err"⟩ : HttpResponse) :=
  (default_transport_exhaustion_passthrough [429, 500, 503] 5 s500 3).1 ⟨500, "err"⟩
    (by intro j hj; rfl) rfl

/-- C4: for the default transport, the sleep between attempt `i` and
attempt `i+1` is `backoff_factor * 2^(i-1)` seconds (the `k`-th element
of the sleep trace, `k = i-1` zero-based, is `backoff_factor * 2^k`),
and `backoff_factor = 0` makes every inter-attempt delay zero. -/
theorem default_transport_backoff_schedule (backoff_factor : Rat) (retry_codes : List Nat)
    (stream : Nat → Outcome) (n : Nat)
    (hall : ∀ j, j < n → statusRetryableB retry_codes (stream j) = true) :
    (∀ k, k < n → ((runRetries retry_codes backoff_factor stream 0 n).2)[k]?
        = some (backoff_factor * 2 ^ k))
  ∧ (backoff_factor = 0 → ∀ k, k < n →
      ((runRetries retry_codes backoff_factor stream 0 n).2)[k]? = some 0) := by
  have base : ∀ k, k < n → ((runRetries retry_codes backoff_factor stream 0 n).2)[k]?
      = some (backoffDelay backoff_factor (0 + k + 1)) := by
    apply runRetries_sleeps_get retry_codes backoff_factor stream n 0
    intro j hj
    simpa using hall j hj
  constructor
  · intro k hk
    have hb := base k hk
    simpa [backoffDelay] using hb
  · intro h0 k hk
    subst h0
    have hb := base k hk
    simpa [backoffDelay] using hb

/-- Witness for C4: with backoff factor 5 the first sleep is 5 seconds
and the second is 10; with factor 0 the second sleep is 0. -/
theorem default_transport_backoff_schedule_witness :
    ((runRetries [429, 500, 503] 5 s500 0 2).2)[0]? = some 5
  ∧ ((runRetries [429, 500, 503] 5 s500 0 2).2)[1]? = some 10
  ∧ ((runRetries [429, 500, 503] 0 s500 0 2).2)[1]? = some 0 := by
  refine ⟨?_, ?_, ?_⟩
  · have h := (default_transport_backoff_schedule 5 [429, 500, 503] s500 2
      (by intro j hj; rfl)).1 0 (by omega)
    rw [h]
    norm_num
  · have h := (default_transport_backoff_schedule 5 [429, 500, 503] s500 2
      (by intro j hj; rfl)).1 1 (by omega)
    rw [h]
    norm_num
  · exact (default_transport_backoff_schedule 0 [429, 500, 503] s500 2
      (by intro j hj; rfl)).2 rfl 1 (by omega)

/-- C8: a retrying transport call with `max_retries` in `[0, 10)` and
`backoff_factor` in `[0, 120)` passes the bounds check and proceeds to
the retry execution; any value outside those bounds fails with the
assertion error at call time, uniformly in the attempt stream — before
any network activity and never as a retry outcome. -/
theorem retry_bounds_precondition (max_retries : Int) (backoff_factor : Rat)
    (retry_codes : List Nat) :
    ((0 ≤ max_retries ∧ max_retries < 10 ∧ 0 ≤ backoff_factor ∧ backoff_factor < 120) →
      ∀ stream, _get_http_response_with_retries max_retries backoff_factor retry_codes stream
        = (runRetries retry_codes backoff_factor stream 0 max_retries.toNat).1)
  ∧ (¬(0 ≤ max_retries ∧ max_retries < 10 ∧ 0 ≤ backoff_factor ∧ backoff_factor < 120) →
      ∀ stream, _get_http_response_with_retries max_retries backoff_factor retry_codes stream
        = Except.error PyError.assertionError) := by
  constructor
  · rintro ⟨h1, h2, h3, h4⟩ stream
    simp [_get_http_response_with_retries, h1, h2, h3, h4]
  · intro h stream
    by_cases hA : 0 ≤ max_retries ∧ max_retries < 10
    · by_cases hB : 0 ≤ backoff_factor ∧ backoff_factor < 120
      · exact absurd ⟨hA.1, hA.2, hB.1, hB.2⟩ h
      · simp [_get_http_response_with_retries, hA, hB]
    · simp [_get_http_response_with_retries, hA]

/-- Witness for C8: `max_retries = 3, backoff_factor = 5` is in bounds
and proceeds; `max_retries = 12` fails the assertion regardless of the
stream. -/
theorem retry_bounds_precondition_witness :
    _get_http_response_with_retries 3 5 [429, 500, 503] s500
      = (runRetries [429, 500, 503] 5 s500 0 (Int.toNat 3)).1
  ∧ _get_http_response_with_retries 12 5 [429, 500, 503] s500
      = Except.error PyError.assertionError := by
  constructor
  · exact (retry_bounds_precondition 3 5 [429, 500, 503]).1 (by norm_num) s500
  · exact (retry_bounds_precondition 12 5 [429, 500, 503]).2 (by norm_num) s500

/-- C5: constructing `MlflowHostCreds` succeeds exactly when the host is
non-empty and it is not the case that TLS verification is ignored while
a server certificate path is set; every violation raises
`MlflowException` with error code `INVALID_PARAMETER_VALUE` at
construction time (so no fields are stored on a failing construction),
and a successful construction stores every argument unchanged. -/
theorem hostcreds_construction_validation (host : String)
    (username password token : Option String) (ignore_tls_verification : Bool)
    (client_cert_path server_cert_path : Option String) :
    ((∃ c, MlflowHostCreds.init host username password token ignore_tls_verification
          client_cert_path server_cert_path = Except.ok c)
       ↔ (host ≠ "" ∧ ¬(ignore_tls_verification = true ∧ server_cert_path ≠ none)))
  ∧ (¬(host ≠ "" ∧ ¬(ignore_tls_verification = true ∧ server_cert_path ≠ none)) →
      ∃ msg, MlflowHostCreds.init host username password token ignore_tls_verification
          client_cert_path server_cert_path
        = Except.error (PyError.mlflowException msg (some INVALID_PARAMETER_VALUE)))
  ∧ (∀ c, MlflowHostCreds.init host username password token ignore_tls_verification
          client_cert_path server_cert_path = Except.ok c →
      c = ⟨host, username, password, token, ignore_tls_verification,
        client_cert_path, server_cert_path⟩) := by
  by_cases h1 : host = ""
  · refine ⟨?_, ?_, ?_⟩
    · simp [MlflowHostCreds.init, h1]
    · intro _
      exact ⟨("host is a required parameter for MlflowHostCreds"),
        by simp [MlflowHostCreds.init, h1]⟩
    · intro c hc
      simp [MlflowHostCreds.init, h1] at hc
  · by_cases h2 : ignore_tls_verification = true ∧ server_cert_path ≠ none
    · refine ⟨?_, ?_, ?_⟩
      · simp [MlflowHostCreds.init, h1, h2]
      · intro _
        exact ⟨("When \x27ignore_tls_verification\x27 is true then \x27server_cert_path\x27 must not be set! This error may have occurred because the \x27MLFLOW_TRACKING_INSECURE_TLS\x27 and \x27MLFLOW_TRACKING_SERVER_CERT_PATH\x27 environment variables are both set - only one of these environment variables may be set."),
          by simp [MlflowHostCreds.init, h1, h2]⟩
      · intro c hc
        simp [MlflowHostCreds.init, h1, h2] at hc
    · refine ⟨?_, ?_, ?_⟩
      · simp [MlflowHostCreds.init, h1, h2]
      · intro habs
        exact absurd ⟨h1, h2⟩ habs
      · intro c hc
        simp [MlflowHostCreds.init, h1, h2] at hc
        exact hc.symm

/-- Witness for C5: the empty host and the TLS mutual-exclusion
violation both fail with `INVALID_PARAMETER_VALUE`; a plain host
succeeds. -/
theorem hostcreds_construction_validation_witness :
    (∃ msg, MlflowHostCreds.init ("") none none none false none none
        = Except.error (PyError.mlflowException msg (some INVALID_PARAMETER_VALUE)))
  ∧ (∃ msg, MlflowHostCreds.init ("http://h") none none none true none (some ("/x"))
        = Except.error (PyError.mlflowException msg (some INVALID_PARAMETER_VALUE)))
  ∧ (∃ c, MlflowHostCreds.init ("http://h") none none none false none none
        = Except.ok c) := by
  refine ⟨?_, ?_, ?_⟩
  · exact (hostcreds_construction_validation ("") none none none false none none).2.1
      (by simp)
  · exact (hostcreds_construction_validation ("http://h") none none none true none
      (some ("/x"))).2.1 (by simp)
  · exact ((hostcreds_construction_validation ("http://h") none none none false none
      none).1).mpr (by simp)

/-- C2 (code bug): with username, password and token all supplied, the
`auth_str` computation of `http_request` tests the username/password
branch first and produces Basic auth of `username:password`; the token
is ignored, contradicting the claim and the `MlflowHostCreds` docstring
("Token to use with Bearer authentication ... If provided,
user/password authentication will be ignored"). -/
theorem auth_header_basic_wins_over_token :
    build_auth_str ⟨"http://h", some "u", some "p", some "t", false, none, none⟩
      = some ("Basic dTpw")
  ∧ build_auth_str ⟨"http://h", some "u", some "p", some "t", false, none, none⟩
      ≠ some ("Bearer t") := by
  constructor
  · rfl
  · decide

/-- C3 counterexample: the cloud-storage transport hands the shared
retry machinery a backoff factor of 1 second, and that machinery's
backoff law is exponential — the delay before the second status retry
is 2 seconds, not a fixed 1 second. -/
theorem cloud_storage_backoff_not_fixed :
    backoffDelay (cloudStorageRetryPolicy 5).backoff_factor 2 = 2
  ∧ ¬ backoffDelay (cloudStorageRetryPolicy 5).backoff_factor 2 = 1 := by
  constructor
  · norm_num [backoffDelay, cloudStorageRetryPolicy]
  · norm_num [backoffDelay, cloudStorageRetryPolicy]

/-- C3 amended: for every cloud-storage transfer the retry budgets are
independent (no shared total) and exactly: zero retries on connect
failure, one retry on read failure, up to 3 redirect follows, a
caller-configurable number (default 5) of status retries over
`{408, 429, 500, 502, 503, 504}`, with backoff factor 1 second whose
schedule follows the shared exponential backoff law (`2^(i-1)` seconds
before status retry `i`), not a fixed 1-second delay. -/
theorem cloud_storage_retry_policy_amended (retry_attempts : Nat) :
    (cloudStorageRetryPolicy retry_attempts).total = none
  ∧ (cloudStorageRetryPolicy retry_attempts).connect = some 0
  ∧ (cloudStorageRetryPolicy retry_attempts).read = some 1
  ∧ (cloudStorageRetryPolicy retry_attempts).redirect = some 3
  ∧ (cloudStorageRetryPolicy retry_attempts).status = some retry_attempts
  ∧ (cloudStorageRetryPolicy retry_attempts).status_forcelist = [408, 429, 500, 502, 503, 504]
  ∧ (cloudStorageRetryPolicy retry_attempts).backoff_factor = 1
  ∧ cloud_storage_http_request_policy none = cloudStorageRetryPolicy 5
  ∧ (∀ k, backoffDelay (cloudStorageRetryPolicy retry_attempts).backoff_factor (k + 1)
      = 2 ^ k) := by
  refine ⟨rfl, rfl, rfl, rfl, rfl, rfl, rfl, rfl, ?_⟩
  intro k
  simp [backoffDelay, cloudStorageRetryPolicy]

/-- C6: for every non-200 response the verifier raises the structured
service error built from the parsed JSON body when the body parses as
JSON (in particular a 429 with the `RESOURCE_DOES_NOT_EXIST` body
yields a `RestException` carrying that error code), and otherwise a
protocol error whose message carries the numeric status code and the
raw body text. -/
theorem verify_non_200_classification (response : HttpResponse) (endpoint : String)
    (h : response.status_code ≠ 200) :
    (∀ j, Json.parse response.text = some j →
        verify_rest_response response endpoint = Except.error (PyError.restException j))
  ∧ (Json.parse response.text = none →
      verify_rest_response response endpoint = Except.error (PyError.mlflowException
        ("API request to endpoint " ++ endpoint ++ " failed with error code "
          ++ toString response.status_code ++ " != 200. Response body: \x27"
          ++ response.text ++ "\x27") none))
  ∧ (verify_rest_response ⟨429, body429⟩ endpoint = Except.error (PyError.restException json429)
      ∧ restExceptionErrorCode json429 = some ("RESOURCE_DOES_NOT_EXIST")) := by
  refine ⟨?_, ?_, rfl, rfl⟩
  · intro j hj
    simp [verify_rest_response, h, hj]
  · intro hn
    simp [verify_rest_response, h, hn]

/-- Witness for C6: the spec's 429 response classifies as a
`RestException` whose error code is `RESOURCE_DOES_NOT_EXIST`. -/
theorem verify_non_200_classification_witness :
    verify_rest_response ⟨429, body429⟩ ("/api/2.0/endpoint")
      = Except.error (PyError.restException json429)
  ∧ restExceptionErrorCode json429 = some ("RESOURCE_DOES_NOT_EXIST") :=
  (verify_non_200_classification ⟨429, body429⟩ ("/api/2.0/endpoint") (by decide)).2.2

/-- C7: a 200 response on an endpoint under the structured-API prefix
whose body is not valid JSON raises a protocol error, while a 200
response on an endpoint outside that prefix is returned unchanged
regardless of its body. -/
theorem verify_200_structured_path_check (response : HttpResponse) (endpoint : String)
    (h200 : response.status_code = 200) :
    (startsWithApiPath endpoint = true → Json.parse response.text = none →
        ∃ msg, verify_rest_response response endpoint
          = Except.error (PyError.mlflowException msg none))
  ∧ (startsWithApiPath endpoint = false →
        verify_rest_response response endpoint = Except.ok response) := by
  constructor
  · intro hp hn
    exact ⟨("API request to endpoint was successful but the response body was not in a valid JSON format. Response body: \x27"
        ++ response.text ++ "\x27"),
      by simp [verify_rest_response, h200, hp, hn, _can_parse_as_json]⟩
  · intro hp
    simp [verify_rest_response, h200, hp]

/-- Witness for C7: body "not json" under the structured prefix raises;
the identical response on a raw download path is returned unchanged. -/
theorem verify_200_structured_path_check_witness :
    (∃ msg, verify_rest_response ⟨200, "not json"⟩ ("/api/2.0/foo")
        = Except.error (PyError.mlflowException msg none))
  ∧ verify_rest_response ⟨200, "not json"⟩ ("/files/x")
      = Except.ok (⟨200, "not json"⟩ : HttpResponse) := by
  constructor
  · exact (verify_200_structured_path_check ⟨200, "not json"⟩ ("/api/2.0/foo") rfl).1 rfl rfl
  · exact (verify_200_structured_path_check ⟨200, "not json"⟩ ("/files/x") rfl).2 rfl

/-- C9: with a non-empty payload, a GET request is dispatched with the
parsed payload as query parameters and no JSON body, every other verb
with the payload as the JSON body and no query parameters; on a
verified response whose body decodes into the caller-specified response
shape, that decoded value is returned. -/
theorem call_endpoint_dispatch {P : Type} (transport : PyRequest → HttpResponse)
    (parse_dict : Json → Option P) (endpoint method json_body : String) (j : Json)
    (hne : json_body ≠ "") (hj : Json.parse json_body = some j) :
    (method = "GET" →
        call_endpoint transport parse_dict endpoint method json_body
          = call_endpoint_response_phase parse_dict endpoint
              (transport ⟨method, some j, none⟩))
  ∧ (method ≠ "GET" →
        call_endpoint transport parse_dict endpoint method json_body
          = call_endpoint_response_phase parse_dict endpoint
              (transport ⟨method, none, some j⟩))
  ∧ (∀ r p, transport (build_request method (some j)) = r →
        verify_rest_response r endpoint = Except.ok r →
        ∀ js, Json.parse r.text = some js → parse_dict js = some p →
        call_endpoint transport parse_dict endpoint method json_body = Except.ok p) := by
  refine ⟨?_, ?_, ?_⟩
  · intro hm
    simp [call_endpoint, hne, hj, build_request, hm]
  · intro hm
    simp [call_endpoint, hne, hj, build_request, hm]
  · intro r p htr hver js hjs hpd
    simp [call_endpoint, hne, hj, htr, call_endpoint_response_phase, hver, hjs, hpd]

/-- Witness for C9: a GET with payload "null" against a transport whose
response body is "null" on a structured path returns the decoded
value. -/
theorem call_endpoint_dispatch_witness :
    call_endpoint tOk idDecode ("/api/2.0/foo") ("GET") ("null") = Except.ok Json.null :=
  (call_endpoint_dispatch tOk idDecode ("/api/2.0/foo") ("GET") ("null") Json.null
      (by decide) rfl).2.2 ⟨200, "null"⟩ Json.null rfl rfl Json.null rfl rfl

/-- C10: whenever the underlying retrying transport raises any
exception, `http_request` raises exactly the one wrapped client
exception — `MlflowException` whose message names the target URL and
the original cause — and a failure is never converted into a normal
return; successful transport results are returned unchanged. -/
theorem http_request_wraps_transport_failures (host_creds : MlflowHostCreds)
    (endpoint : String) (e : PyError) :
    (http_request host_creds endpoint (Except.error e)
        = Except.error (PyError.mlflowException
            ("API request to " ++ http_request_url host_creds.host endpoint
              ++ " failed with exception " ++ pyErrorStr e) none))
  ∧ (∃ pre post, "API request to " ++ http_request_url host_creds.host endpoint
        ++ " failed with exception " ++ pyErrorStr e
        = pre ++ (http_request_url host_creds.host endpoint ++ post))
  ∧ (∃ pre2, "API request to " ++ http_request_url host_creds.host endpoint
        ++ " failed with exception " ++ pyErrorStr e
        = pre2 ++ pyErrorStr e)
  ∧ (∀ r, http_request host_creds endpoint (Except.ok r) = Except.ok r) := by
  refine ⟨rfl, ?_, ?_, fun r => rfl⟩
  · refine ⟨("API request to "), (" failed with exception " ++ pyErrorStr e), ?_⟩
    simp [String.append_assoc]
  · exact ⟨("API request to " ++ http_request_url host_creds.host endpoint
      ++ " failed with exception "), rfl⟩
